import Mathlib

/-!
Verification of the boat energy simulator model
(`lib/boat_model.py`, `lib/competition_model.py`,
`lib/energy_controller_model.py`).

Machine floats are modelled as exact rationals; the arithmetic of every
claim is plain field arithmetic, identical over the rationals and the
reals.
-/

/-- Modelled from the spec: `lib.utils.naive_energy` is imported by
`boat_model.py` but `lib/utils.py` is not among the given source files.
The spec gives the time-power relation: energy added over `dt` seconds at
`power` is `power * dt / timebase` with `timebase = 3600`. -/
def naive_energy (power dt timebase : ℚ) : ℚ :=
  power * dt / timebase

/-- Modelled from the spec: `lib.utils.naive_power` is imported by
`boat_model.py` but `lib/utils.py` is not among the given source files.
The spec gives the inverse of the same time-power relation:
`power = energy * timebase / dt`. -/
def naive_power (energy dt timebase : ℚ) : ℚ :=
  energy * timebase / dt

/-- `Panel` dataclass of `boat_model.py`. -/
structure Panel where
  efficiency : ℚ
  area : ℚ
  maximum_output_power : ℚ
deriving DecidableEq

/-- `Panel.solve_output` of `boat_model.py` (lines 36-44). -/
def Panel.solve_output (p : Panel) (irradiation : ℚ) : ℚ :=
  let input_power := irradiation * p.area
  let output_power := input_power * p.efficiency
  if output_power > p.maximum_output_power then p.maximum_output_power
  else output_power

/-- `Battery` dataclass of `boat_model.py`: configuration plus mutable
state, exactly the fields the Python class carries. -/
structure Battery where
  efficiency : ℚ
  energy : ℚ
  soc : ℚ
  minimum_soc : ℚ
  maximum_energy : ℚ
  minimum_energy : ℚ
  maximum_power : ℚ
deriving DecidableEq

/-- `Battery.__init__` of `boat_model.py` (lines 57-72). -/
def Battery.init (soc_0 minimum_soc efficiency maximum_energy maximum_power : ℚ) :
    Battery :=
  { efficiency := efficiency
    soc := soc_0
    minimum_soc := minimum_soc
    energy := soc_0 * maximum_energy
    maximum_energy := maximum_energy
    minimum_energy := maximum_energy * minimum_soc
    maximum_power := maximum_power }

/-- `Battery._charge` of `boat_model.py` (lines 74-85): returns the
achievable power together with the updated battery state. -/
def Battery.charge (b : Battery) (dt power : ℚ) : ℚ × Battery :=
  let energy := naive_energy power dt 3600
  let e1 := b.energy + energy * b.efficiency
  if e1 > b.maximum_energy then
    let exceeded_energy := e1 - b.maximum_energy
    let e2 := e1 - exceeded_energy
    let exceeded_power := naive_power exceeded_energy dt 3600
    (power - exceeded_power, { b with energy := e2 })
  else
    (power, { b with energy := e1 })

/-- `Battery._discharge` of `boat_model.py` (lines 87-98): returns the
achievable power together with the updated battery state. -/
def Battery.discharge (b : Battery) (dt power : ℚ) : ℚ × Battery :=
  let energy := naive_energy power dt 3600
  let e1 := b.energy - energy * b.efficiency
  if e1 < b.minimum_energy then
    let exceeded_energy := b.minimum_energy - e1
    let e2 := e1 + exceeded_energy
    let exceeded_power := naive_power exceeded_energy dt 3600
    (power - exceeded_power, { b with energy := e2 })
  else
    (power, { b with energy := e1 })

/-- `Battery.solve` of `boat_model.py` (lines 100-109): dispatches on the
sign of the target power, then recomputes `soc`. -/
def Battery.solve (b : Battery) (dt target_power : ℚ) : ℚ × Battery :=
  let r :=
    if target_power > 0 then b.charge dt (abs target_power)
    else
      let d := b.discharge dt (abs target_power)
      (-d.1, d.2)
  let b1 := r.2
  (r.1, { b1 with soc := b1.energy / b1.maximum_energy })

/-- `Other` dataclass of `boat_model.py` (the auxiliary circuits load). -/
structure Other where
  power : ℚ
deriving DecidableEq

/-- `ESC` dataclass of `boat_model.py`. -/
structure ESC where
  efficiency : ℚ
  maximum_input_power : ℚ
deriving DecidableEq

/-- `ESC.solve_input` of `boat_model.py` (lines 122-130): clips the
throttle to `[0, 1]`, scales by the maximum input power, then clamps
above at the maximum input power. -/
def ESC.solve_input (e : ESC) (throttle : ℚ) : ℚ :=
  let throttle := min (max throttle 0) 1
  let input_power := throttle * e.maximum_input_power
  if input_power > e.maximum_input_power then e.maximum_input_power
  else input_power

/-- `ESC.solve_output` of `boat_model.py` (lines 132-135). -/
def ESC.solve_output (e : ESC) (input_power : ℚ) : ℚ :=
  input_power * e.efficiency

/-- `Motor` dataclass of `boat_model.py`. -/
structure Motor where
  efficiency : ℚ
  maximum_input_power : ℚ
deriving DecidableEq

/-- `Motor.solve_input` of `boat_model.py` (lines 143-148). -/
def Motor.solve_input (m : Motor) (input_power : ℚ) : ℚ :=
  if input_power > m.maximum_input_power then m.maximum_input_power
  else input_power

/-- `Motor.solve_output` of `boat_model.py` (lines 150-153). -/
def Motor.solve_output (m : Motor) (input_power : ℚ) : ℚ :=
  input_power * m.efficiency

/-- `Propulsion` dataclass of `boat_model.py`. -/
structure Propulsion where
  efficiency : ℚ
  maximum_input_power : ℚ
deriving DecidableEq

/-- `Propulsion.solve_input` of `boat_model.py` (lines 161-166). -/
def Propulsion.solve_input (p : Propulsion) (input_power : ℚ) : ℚ :=
  if input_power > p.maximum_input_power then p.maximum_input_power
  else input_power

/-- `Propulsion.solve_output` of `boat_model.py` (lines 168-171). -/
def Propulsion.solve_output (p : Propulsion) (input_power : ℚ) : ℚ :=
  input_power * p.efficiency

/-- `Hull` dataclass of `boat_model.py`. -/
structure Hull where
  speed_over_power_constant : ℚ
deriving DecidableEq

/-- `Hull.solve_output` of `boat_model.py` (lines 178-182). -/
def Hull.solve_output (h : Hull) (propulsion_power : ℚ) : ℚ :=
  propulsion_power * h.speed_over_power_constant

/-- `BoatOutputData` record: `lib/boat_data.py` is not among the given
source files; the fields are exactly those assigned at its construction
site in `Boat.run` (`boat_model.py` lines 242-256). -/
structure BoatOutputData where
  pv_output_power : ℚ
  battery_stored_energy : ℚ
  battery_soc : ℚ
  battery_output_power : ℚ
  esc_input_power : ℚ
  esc_output_power : ℚ
  motor_output_power : ℚ
  propulsive_output_power : ℚ
  hull_speed : ℚ
  pv_target_power : ℚ
  esc_target_power : ℚ
  battery_target_power : ℚ
  motor_target_throttle : ℚ
deriving DecidableEq

/-- `Boat` dataclass of `boat_model.py`. -/
structure Boat where
  panel : Panel
  battery : Battery
  circuits : Other
  esc : ESC
  motor : Motor
  propulsion : Propulsion
  hull : Hull
deriving DecidableEq

/-- `Boat.run` of `boat_model.py` (lines 195-256): one timestep of the
power-balance solver, returning the telemetry record together with the
updated boat (only the battery state mutates). -/
def Boat.run (b : Boat) (dt irradiation motor_throttle : ℚ) :
    BoatOutputData × Boat :=
  let target_circuits_input_power := b.circuits.power
  let target_pv_output_power := b.panel.solve_output irradiation
  let target_esc_input_power :=
    b.propulsion.solve_input (b.motor.solve_input (b.esc.solve_input motor_throttle))
  let target_battery_power :=
    target_pv_output_power - target_esc_input_power - target_circuits_input_power
  let s := b.battery.solve dt target_battery_power
  let actual_battery_power := s.1
  let battery1 := s.2
  let actual_circuits_input_power := target_circuits_input_power
  let apv :=
    actual_battery_power + target_esc_input_power + actual_circuits_input_power
  let actual_pv_output_power :=
    if apv > target_pv_output_power then target_pv_output_power else apv
  let aesc :=
    actual_pv_output_power - actual_battery_power - actual_circuits_input_power
  let actual_esc_input_power :=
    if aesc > target_esc_input_power then target_esc_input_power else aesc
  let actual_esc_output_power := b.esc.solve_output actual_esc_input_power
  let actual_motor_output_power := b.motor.solve_output actual_esc_output_power
  let actual_propulsive_output_power :=
    b.propulsion.solve_output actual_motor_output_power
  let actual_hull_speed := b.hull.solve_output actual_propulsive_output_power
  ({ pv_output_power := actual_pv_output_power
     battery_stored_energy := battery1.energy
     battery_soc := battery1.soc
     battery_output_power := actual_battery_power
     esc_input_power := actual_esc_input_power
     esc_output_power := actual_esc_output_power
     motor_output_power := actual_esc_output_power
     propulsive_output_power := actual_propulsive_output_power
     hull_speed := actual_hull_speed
     pv_target_power := target_pv_output_power
     esc_target_power := target_battery_power
     battery_target_power := target_esc_input_power
     motor_target_throttle := motor_throttle },
   { b with battery := battery1 })

/-- Modelled from the spec: one row of the input series
(`BoatInputDataSet`, defined in `lib/boat_data.py`, which is not among
the given source files). The spec asks for an ordered time series with at
least a monotonic `time` and an `irradiation`; timestamps are modelled as
integers. -/
structure InputRow where
  time : ℤ
  irradiation : ℚ
deriving DecidableEq, Inhabited

/-- Modelled from the spec: the `[start, end]` window of one event
(`event.data.start` and `event.data.end`; `lib/event_model.py` is not
among the given source files). -/
structure EventData where
  start : ℤ
  stop : ℤ
deriving DecidableEq, Inhabited

/-- Modelled from the spec: an `Event` carries its window; the per-event
loop itself is an external collaborator, so `Competition.run` below takes
it as a function argument. -/
structure Event where
  data : EventData
deriving DecidableEq, Inhabited

/-- `Competition` dataclass of `competition_model.py`. -/
structure Competition where
  name : String
  events : List Event

/-- `Competition._check_input` of `competition_model.py` (lines 67-79):
raises a `ValueError` when the first timestamp is after the competition
start or the last timestamp is before the competition end. -/
def Competition.check_input (input_data : List InputRow)
    (competition_start competition_end : ℤ) : Except String Unit :=
  if input_data.headI.time > competition_start then
    Except.error "Given data can't start after the first event's start"
  else if (input_data.getLastI).time < competition_end then
    Except.error "Given data can't end before the first event's end."
  else Except.ok ()

/-- `Competition.run` of `competition_model.py` (lines 26-65). The state
type `σ` stands for the mutable boat (battery) state and `ρ` for
`EventOutputData`; `event_run` is the external `Event.run` collaborator,
which consumes the event input slice and the boat state. Raised
exceptions are modelled as `Except.error`. -/
def Competition.run {σ ρ : Type} (c : Competition)
    (event_run : Event → List InputRow → σ → ρ × σ)
    (input_data : List InputRow) (boat : σ) :
    Except String (List ρ × σ) :=
  let competition_start := c.events.headI.data.start
  let competition_end := (c.events.getLastI).data.stop
  match Competition.check_input input_data competition_start competition_end with
  | Except.error e => Except.error e
  | Except.ok _ =>
    let sliced := input_data.filter fun r =>
      decide (r.time ≥ competition_start) && decide (r.time ≤ competition_end)
    let run_event := fun (acc : List ρ × σ) (event : Event) =>
      let event_start := event.data.start
      let event_end := event.data.stop
      let event_input_data := sliced.filter fun r =>
        decide (r.time ≥ event_start) && decide (r.time ≤ event_end)
      let r := event_run event event_input_data acc.2
      (acc.1 ++ [r.1], r.2)
    Except.ok (c.events.foldl run_event ([], boat))

/-- Claim C2: for every `dt > 0` and `power ≥ 0`, if the battery state
satisfies the energy invariant and the requested charge would overshoot
capacity, then `Battery._charge` returns an achievable power strictly
less than `power`, leaves `energy` equal to `maximum_energy` exactly, and
the returned power is `power` minus the exceeded energy converted back
through the inverse time-power relation (no division by efficiency). -/
theorem battery_charge_overshoot_clamps (b : Battery) (dt power : ℚ)
    (hdt : 0 < dt) (hp : 0 ≤ power)
    (hlo : b.minimum_energy ≤ b.energy) (hhi : b.energy ≤ b.maximum_energy)
    (hover : b.maximum_energy < b.energy + power * dt / 3600 * b.efficiency) :
    (b.charge dt power).1 < power ∧
    (b.charge dt power).2.energy = b.maximum_energy ∧
    (b.charge dt power).1 =
      power -
        (b.energy + power * dt / 3600 * b.efficiency - b.maximum_energy)
          * 3600 / dt := by
  have hX : 0 < b.energy + power * dt / 3600 * b.efficiency - b.maximum_energy :=
    by linarith
  have hXp :
      0 < (b.energy + power * dt / 3600 * b.efficiency - b.maximum_energy)
            * 3600 / dt :=
    div_pos (by linarith) hdt
  simp only [Battery.charge, naive_energy, naive_power, if_pos hover]
  refine ⟨by linarith, by ring, by ring⟩

/-- Claim C3: for every `dt > 0` and `power ≥ 0`, if the battery state
satisfies the energy invariant and the requested discharge would breach
the floor, then `Battery._discharge` returns an achievable power strictly
less than `power` and leaves `energy` equal to `minimum_energy` exactly. -/
theorem battery_discharge_floor_clamps (b : Battery) (dt power : ℚ)
    (hdt : 0 < dt) (hp : 0 ≤ power)
    (hlo : b.minimum_energy ≤ b.energy) (hhi : b.energy ≤ b.maximum_energy)
    (hunder : b.energy - power * dt / 3600 * b.efficiency < b.minimum_energy) :
    (b.discharge dt power).1 < power ∧
    (b.discharge dt power).2.energy = b.minimum_energy := by
  have hX : 0 < b.minimum_energy - (b.energy - power * dt / 3600 * b.efficiency) :=
    by linarith
  have hXp :
      0 < (b.minimum_energy - (b.energy - power * dt / 3600 * b.efficiency))
            * 3600 / dt :=
    div_pos (by linarith) hdt
  simp only [Battery.discharge, naive_energy, naive_power, if_pos hunder]
  refine ⟨by linarith, by ring⟩

/-- Claim C1: for every `dt > 0` and every target power, if the battery
satisfies `minimum_energy ≤ energy ≤ maximum_energy` before the call
(with `minimum_energy = maximum_energy * minimum_soc` and a nonnegative
efficiency, as the data model prescribes), then after `Battery.solve` it
again satisfies `minimum_energy ≤ energy ≤ maximum_energy` and
`soc = energy / maximum_energy` exactly. -/
theorem battery_solve_invariant (b : Battery) (dt target_power : ℚ)
    (hdt : 0 < dt) (heff : 0 ≤ b.efficiency)
    (hmin : b.minimum_energy = b.maximum_energy * b.minimum_soc)
    (hlo : b.minimum_energy ≤ b.energy) (hhi : b.energy ≤ b.maximum_energy) :
    (b.solve dt target_power).2.minimum_energy ≤
        (b.solve dt target_power).2.energy ∧
    (b.solve dt target_power).2.energy ≤
        (b.solve dt target_power).2.maximum_energy ∧
    (b.solve dt target_power).2.soc =
      (b.solve dt target_power).2.energy /
        (b.solve dt target_power).2.maximum_energy := by
  have habs : 0 ≤ |target_power| := abs_nonneg _
  have h1 : 0 ≤ |target_power| * dt := mul_nonneg habs hdt.le
  have h2 : 0 ≤ |target_power| * dt / 3600 := div_nonneg h1 (by norm_num)
  have hadd : 0 ≤ |target_power| * dt / 3600 * b.efficiency := mul_nonneg h2 heff
  simp only [Battery.solve, Battery.charge, Battery.discharge,
    naive_energy, naive_power]
  split_ifs with hsign hc hd <;>
    refine ⟨by simp <;> linarith, by simp <;> linarith, by simp⟩

/-- Claim C4: `Battery.solve` dispatches on the sign of the target power:
for positive targets it returns the (non-negated) achievable charge power
of `|targetPower|`, otherwise (zero included) the negated achievable
discharge power of `|targetPower|`; in both branches the resulting state
has the energy of that branch and `soc` recomputed as
`energy / maximum_energy`. -/
theorem battery_solve_dispatch (b : Battery) (dt target_power : ℚ) :
    (b.solve dt target_power).1 =
      (if target_power > 0 then (b.charge dt |target_power|).1
       else -((b.discharge dt |target_power|).1)) ∧
    (b.solve dt target_power).2.energy =
      (if target_power > 0 then (b.charge dt |target_power|).2.energy
       else (b.discharge dt |target_power|).2.energy) ∧
    (b.solve dt target_power).2.soc =
      (b.solve dt target_power).2.energy / b.maximum_energy := by
  simp only [Battery.solve]
  split_ifs with hsign <;>
    refine ⟨rfl, rfl, ?_⟩ <;>
  · simp only [Battery.charge, Battery.discharge]
    split_ifs <;> rfl

/-- Claim C7: charging with `power` and then discharging with the
achievable power returned by the charge brings the stored energy back to
within the round-trip efficiency loss of its original value, and never
leaves the stored energy above the original value. -/
theorem battery_charge_discharge_roundtrip (b : Battery) (dt power : ℚ)
    (hdt : 0 < dt) (hp : 0 ≤ power)
    (heff0 : 0 ≤ b.efficiency) (heff1 : b.efficiency ≤ 1)
    (hlo : b.minimum_energy ≤ b.energy) (hhi : b.energy ≤ b.maximum_energy) :
    ((b.charge dt power).2.discharge dt (b.charge dt power).1).2.energy
        ≤ b.energy ∧
    b.energy -
        ((b.charge dt power).2.discharge dt (b.charge dt power).1).2.energy
      ≤ (1 - b.efficiency ^ 2) * (power * dt / 3600) := by
  have hdt' : dt ≠ 0 := ne_of_gt hdt
  have hpd : 0 ≤ power * dt / 3600 := by positivity
  simp only [Battery.charge, Battery.discharge, naive_energy, naive_power]
  have hsub :
      (power - (b.energy + power * dt / 3600 * b.efficiency - b.maximum_energy)
          * 3600 / dt) * dt / 3600
        = power * dt / 3600 -
            (b.energy + power * dt / 3600 * b.efficiency - b.maximum_energy) := by
    field_simp
  split_ifs with hc hd1 hd2
  · simp only [] at hd1 ⊢
    rw [hsub] at hd1 ⊢
    constructor
    · nlinarith
    · nlinarith [mul_nonneg (sub_nonneg.mpr heff1)
          (sub_nonneg.mpr (by nlinarith :
            b.energy + power * dt / 3600 * b.efficiency - b.maximum_energy
              ≤ power * dt / 3600 * b.efficiency)),
        mul_nonneg (mul_nonneg hpd heff0) (sub_nonneg.mpr heff1)]
  · simp only [] at hd1 ⊢
    rw [hsub] at hd1 ⊢
    constructor
    · nlinarith
    · nlinarith [mul_nonneg (sub_nonneg.mpr heff1)
          (sub_nonneg.mpr (by nlinarith :
            b.energy + power * dt / 3600 * b.efficiency - b.maximum_energy
              ≤ power * dt / 3600 * b.efficiency)),
        mul_nonneg (mul_nonneg hpd heff0) (sub_nonneg.mpr heff1)]
  · simp only [] at hd2 ⊢
    constructor
    · nlinarith
    · nlinarith
  · simp only [] at hd2 ⊢
    constructor
    · nlinarith
    · nlinarith [mul_nonneg (mul_nonneg hpd (sub_nonneg.mpr heff1))
        (by linarith : (0:ℚ) ≤ 1 + b.efficiency)]

/-- Witness for claim C1 at a concrete input: the spec example battery
(soc 1/2 of 1000 Wh, efficiency 95 percent) charged at 270 W for one
second. -/
theorem battery_solve_invariant_witness :
    ((Battery.mk (19/20) 500 (1/2) (1/10) 1000 100 500).solve 1 270).2.minimum_energy ≤
        ((Battery.mk (19/20) 500 (1/2) (1/10) 1000 100 500).solve 1 270).2.energy ∧
    ((Battery.mk (19/20) 500 (1/2) (1/10) 1000 100 500).solve 1 270).2.energy ≤
        ((Battery.mk (19/20) 500 (1/2) (1/10) 1000 100 500).solve 1 270).2.maximum_energy ∧
    ((Battery.mk (19/20) 500 (1/2) (1/10) 1000 100 500).solve 1 270).2.soc =
      ((Battery.mk (19/20) 500 (1/2) (1/10) 1000 100 500).solve 1 270).2.energy /
        ((Battery.mk (19/20) 500 (1/2) (1/10) 1000 100 500).solve 1 270).2.maximum_energy :=
  battery_solve_invariant (Battery.mk (19/20) 500 (1/2) (1/10) 1000 100 500) 1 270
    (by norm_num) (by norm_num) (by norm_num) (by norm_num) (by norm_num)

/-- Witness for claim C7 at a concrete input: battery at 99 of 100 Wh
with efficiency 1/2, charged at 100 W for one hour (overshoots the
capacity), then discharged with the achievable power. -/
theorem battery_charge_discharge_roundtrip_witness :
    (((Battery.mk (1/2) 99 (99/100) (1/10) 100 10 500).charge 3600 100).2.discharge
          3600 ((Battery.mk (1/2) 99 (99/100) (1/10) 100 10 500).charge 3600 100).1).2.energy
        ≤ (Battery.mk (1/2) 99 (99/100) (1/10) 100 10 500).energy ∧
    (Battery.mk (1/2) 99 (99/100) (1/10) 100 10 500).energy -
        (((Battery.mk (1/2) 99 (99/100) (1/10) 100 10 500).charge 3600 100).2.discharge
          3600 ((Battery.mk (1/2) 99 (99/100) (1/10) 100 10 500).charge 3600 100).1).2.energy
      ≤ (1 - (Battery.mk (1/2) 99 (99/100) (1/10) 100 10 500).efficiency ^ 2) *
          (100 * 3600 / 3600) :=
  battery_charge_discharge_roundtrip (Battery.mk (1/2) 99 (99/100) (1/10) 100 10 500)
    3600 100 (by norm_num) (by norm_num) (by norm_num) (by norm_num)
    (by norm_num) (by norm_num)

/-- Claim C8: `Competition.run` fails with the invalid-argument error
exactly when the first timestamp of the input series is after the first
event start or its last timestamp is before the last event end; the
check happens before any event runs, so on failure the result is the
same error for every event-running function and no boat state is
produced. -/
theorem competition_run_validation {σ ρ : Type} (c : Competition)
    (input_data : List InputRow)
    (hev : c.events ≠ []) (hin : input_data ≠ []) :
    ∀ (boat : σ) (event_run : Event → List InputRow → σ → ρ × σ),
      ((input_data.headI.time > c.events.headI.data.start ∨
          (input_data.getLastI).time < (c.events.getLastI).data.stop) →
        c.run event_run input_data boat =
          Except.error
            (if input_data.headI.time > c.events.headI.data.start then
              "Given data can't start after the first event's start"
             else "Given data can't end before the first event's end.")) ∧
      (¬ (input_data.headI.time > c.events.headI.data.start ∨
          (input_data.getLastI).time < (c.events.getLastI).data.stop) →
        ∃ out, c.run event_run input_data boat = Except.ok out) := by
  intro boat event_run
  constructor
  · intro hfail
    simp only [Competition.run, Competition.check_input]
    rcases hfail with h1 | h2
    · rw [if_pos h1]
      rw [if_pos h1]
    · by_cases h1 : input_data.headI.time > c.events.headI.data.start
      · rw [if_pos h1, if_pos h1]
      · rw [if_neg h1, if_pos h2, if_neg h1]
  · intro hok
    push_neg at hok
    simp only [Competition.run, Competition.check_input]
    rw [if_neg (not_lt.mpr hok.1), if_neg (not_lt.mpr hok.2)]
    exact ⟨_, rfl⟩

/-- Witness for claim C8 at a concrete input: the spec fixture, an input
series spanning times 0 to 10 against a single event window from -1 to
10, fails the coverage check with the first message. -/
theorem competition_run_validation_witness :
    Competition.run (Competition.mk "fixture" [Event.mk (EventData.mk (-1) 10)])
        ((fun _ _ s => (s, s)) : Event → List InputRow → ℕ → ℕ × ℕ)
        [InputRow.mk 0 0, InputRow.mk 10 0] 0 =
      Except.error "Given data can't start after the first event's start" := by
  have h := (competition_run_validation
      (Competition.mk "fixture" [Event.mk (EventData.mk (-1) 10)])
      [InputRow.mk 0 0, InputRow.mk 10 0]
      (by simp) (by simp) 0
      ((fun _ _ s => (s, s)) : Event → List InputRow → ℕ → ℕ × ℕ)).1
      (Or.inl (by decide))
  simpa using h

/-- Claim C5 counterexample: `Panel.solve_output` does not clip below at
zero. For the panel with efficiency 1/5, area 2 and maximum output power
1000, irradiation -1 yields the output power -2/5, which is below 0,
refuting `solve_output(irradiation) = clip(irradiation * area *
efficiency, 0, maxOutputPower)`. -/
theorem panel_solve_output_negative_counterexample :
    (Panel.mk (1/5) 2 1000).solve_output (-1) < 0 := by
  norm_num [Panel.solve_output]

/-- Claim C5 (amended): for every irradiation value,
`Panel.solve_output(irradiation)` returns
`min(irradiation * area * efficiency, maxOutputPower)`: the result is
never above `maxOutputPower`, but there is no lower clip at 0, so
negative irradiation can produce a negative output power. -/
theorem panel_solve_output_eq_min (p : Panel) (irradiation : ℚ) :
    p.solve_output irradiation =
      min (irradiation * p.area * p.efficiency) p.maximum_output_power := by
  simp only [Panel.solve_output]
  split_ifs with h
  · exact (min_eq_right (le_of_lt h)).symm
  · exact (min_eq_left (not_lt.mp h)).symm

/-- Claim C6: in every call to `Boat.run`, the actual ESC input power is
at most the target ESC input power, and the actual PV output power is at
most the target PV output power. -/
theorem boat_run_monotonicity (b : Boat) (dt irradiation motor_throttle : ℚ) :
    (b.run dt irradiation motor_throttle).1.esc_input_power ≤
      b.propulsion.solve_input
        (b.motor.solve_input (b.esc.solve_input motor_throttle)) ∧
    (b.run dt irradiation motor_throttle).1.pv_output_power ≤
      b.panel.solve_output irradiation := by
  simp only [Boat.run]
  constructor <;> split_ifs <;> simp_all <;> linarith

/-- Claim C9: in every `BoatOutputData` returned by `Boat.run`, the
`motor_output_power` field equals the `esc_output_power` field (both are
assigned the ESC-stage output), while the motor efficiency loss is still
applied downstream: the propulsive output is the propulsion efficiency
times the motor stage output of the ESC output. -/
theorem boat_run_motor_output_is_esc_output (b : Boat)
    (dt irradiation motor_throttle : ℚ) :
    (b.run dt irradiation motor_throttle).1.motor_output_power =
      (b.run dt irradiation motor_throttle).1.esc_output_power ∧
    (b.run dt irradiation motor_throttle).1.propulsive_output_power =
      b.motor.solve_output ((b.run dt irradiation motor_throttle).1.esc_output_power)
        * b.propulsion.efficiency :=
  ⟨rfl, rfl⟩

/-- Claim C10: `Battery.solve` never reads `maximum_power`: two batteries
agreeing on every field except `maximum_power` produce the same returned
power, the same post-state energy and the same post-state soc. -/
theorem battery_solve_ignores_maximum_power (b1 b2 : Battery)
    (dt target_power : ℚ)
    (heff : b1.efficiency = b2.efficiency) (hen : b1.energy = b2.energy)
    (hsoc : b1.soc = b2.soc) (hmsoc : b1.minimum_soc = b2.minimum_soc)
    (hmaxe : b1.maximum_energy = b2.maximum_energy)
    (hmine : b1.minimum_energy = b2.minimum_energy) :
    (b1.solve dt target_power).1 = (b2.solve dt target_power).1 ∧
    (b1.solve dt target_power).2.energy = (b2.solve dt target_power).2.energy ∧
    (b1.solve dt target_power).2.soc = (b2.solve dt target_power).2.soc := by
  obtain ⟨e1, en1, s1, ms1, me1, mn1, mp1⟩ := b1
  obtain ⟨e2, en2, s2, ms2, me2, mn2, mp2⟩ := b2
  simp only [] at heff hen hsoc hmsoc hmaxe hmine
  subst heff hen hsoc hmsoc hmaxe hmine
  simp only [Battery.solve, Battery.charge, Battery.discharge]
  split_ifs <;> simp

/-- Witness for claim C10 at a concrete input: two batteries identical
except for maximum powers 500 and 999. -/
theorem battery_solve_ignores_maximum_power_witness :
    ((Battery.mk 1 500 (1/2) (1/10) 1000 100 500).solve 1 100).1 =
      ((Battery.mk 1 500 (1/2) (1/10) 1000 100 999).solve 1 100).1 ∧
    ((Battery.mk 1 500 (1/2) (1/10) 1000 100 500).solve 1 100).2.energy =
      ((Battery.mk 1 500 (1/2) (1/10) 1000 100 999).solve 1 100).2.energy ∧
    ((Battery.mk 1 500 (1/2) (1/10) 1000 100 500).solve 1 100).2.soc =
      ((Battery.mk 1 500 (1/2) (1/10) 1000 100 999).solve 1 100).2.soc :=
  battery_solve_ignores_maximum_power
    (Battery.mk 1 500 (1/2) (1/10) 1000 100 500)
    (Battery.mk 1 500 (1/2) (1/10) 1000 100 999) 1 100
    rfl rfl rfl rfl rfl rfl

/-- Witness for claim C2 at a concrete input: battery at 900 of 1000 Wh,
efficiency 1, charging 1000 W for one hour overshoots by 900 Wh. -/
theorem battery_charge_overshoot_clamps_witness :
    ((Battery.mk 1 900 (9/10) (1/10) 1000 100 500).charge 3600 1000).1 < 1000 ∧
    ((Battery.mk 1 900 (9/10) (1/10) 1000 100 500).charge 3600 1000).2.energy
      = 1000 := by
  have h := battery_charge_overshoot_clamps
    (Battery.mk 1 900 (9/10) (1/10) 1000 100 500) 3600 1000
    (by norm_num) (by norm_num) (by norm_num) (by norm_num) (by norm_num)
  exact ⟨h.1, h.2.1⟩

/-- Witness for claim C3 at a concrete input: battery at 200 of 1000 Wh,
efficiency 1, floor 100 Wh, discharging 1000 W for one hour breaches the
floor. -/
theorem battery_discharge_floor_clamps_witness :
    ((Battery.mk 1 200 (1/5) (1/10) 1000 100 500).discharge 3600 1000).1 < 1000 ∧
    ((Battery.mk 1 200 (1/5) (1/10) 1000 100 500).discharge 3600 1000).2.energy
      = 100 := by
  exact battery_discharge_floor_clamps
    (Battery.mk 1 200 (1/5) (1/10) 1000 100 500) 3600 1000
    (by norm_num) (by norm_num) (by norm_num) (by norm_num) (by norm_num)
